import Mathlib

/-!
Verification development for the `energymeter-admin` repository, a React
administrative console for an energy-metering system.  The relevant parts
of `src/pages/Home.tsx` (report page) and `src/pages/channels.tsx`
(Channels and EnergyMeter CRUD pages) are embedded shallowly: event
handlers become pure functions from their inputs (form data, fetched
responses, component state) to the requests they issue and the state
updates and toasts they perform.
-/

/-- Model of a JavaScript scalar value, used where the code relies on JS
truthiness (for example `values[idx].enabled ? true : false`). -/
inductive JSValue where
  | null
  | undefined
  | bool (b : Bool)
  | num (n : Int)
  | str (s : String)
deriving DecidableEq, Repr

/-- JavaScript truthiness of a scalar: `null`, `undefined`, `false`, `0`
and the empty string are falsy, everything else is truthy. -/
def JSValue.truthy : JSValue → Bool
  | .null => false
  | .undefined => false
  | .bool b => b
  | .num n => n != 0
  | .str s => s != ""

/-- A calendar date as selected in the report form's `Calendar` fields. -/
structure Date where
  year : Nat
  month : Nat
  day : Nat
deriving DecidableEq, Repr

/-- Two-digit zero-padded decimal rendering, as moment's `MM` and `DD`
format tokens render in-range month and day numbers. -/
def pad2 (n : Nat) : String :=
  String.mk [Nat.digitChar (n / 10 % 10), Nat.digitChar (n % 10)]

/-- Four-digit zero-padded decimal rendering, as moment's `YYYY` format
token renders in-range Gregorian years. -/
def pad4 (n : Nat) : String :=
  String.mk [Nat.digitChar (n / 1000 % 10), Nat.digitChar (n / 100 % 10),
    Nat.digitChar (n / 10 % 10), Nat.digitChar (n % 10)]

/-- Model of `moment(d).format("YYYY-MM-DD")` as used by `updateTable` in
`Home.tsx`. -/
def formatYYYYMMDD (d : Date) : String :=
  pad4 d.year ++ "-" ++ pad2 d.month ++ "-" ++ pad2 d.day

/-- Specification-side shape predicate: the string consists of four digits,
a dash, two digits, a dash and two digits, i.e. it is in `YYYY-MM-DD`
form. -/
def isYYYYMMDD (s : String) : Bool :=
  match s.data with
  | [y1, y2, y3, y4, h1, m1, m2, h2, d1, d2] =>
      y1.isDigit && y2.isDigit && y3.isDigit && y4.isDigit && h1 == '-' &&
      m1.isDigit && m2.isDigit && h2 == '-' && d1.isDigit && d2.isDigit
  | _ => false

/-- The report form values of `Home.tsx` (interface `FormValues`): the two
calendar dates, the selected device IP, the selected channel number (the
synthetic "All" option carries `channel = -1`) and the granularity. -/
structure FormValues where
  fromDate : Date
  toDate : Date
  ipAddress : String
  channel : Int
  details : String
deriving DecidableEq, Repr

/-- The query URL built by `updateTable` in `Home.tsx`: the four mandatory
query parameters, and `&channel=` appended when `params.channel > 0`. -/
def reportPath (params : FormValues) : String :=
  let path := "/api/measurements/report?fromdate=" ++ formatYYYYMMDD params.fromDate
    ++ "&todate=" ++ formatYYYYMMDD params.toDate ++ "&ip=" ++ params.ipAddress
    ++ "&details=" ++ params.details
  if 0 < params.channel then path ++ "&channel=" ++ toString params.channel else path

/-- Outcome of the report form's submit handler: either an error toast with
no fetch, or a report fetch at the given path. -/
inductive HomeAction where
  | reject (message : String)
  | fetchReport (path : String)
deriving DecidableEq, Repr

/-- Model of `onSubmit` in `Home.tsx`: if the requested start year is
strictly below the current year and the granularity is not `monthly`, an
error toast is shown and no fetch happens; otherwise `updateTable` fetches
the report. -/
def homeOnSubmit (currentYear : Nat) (data : FormValues) : HomeAction :=
  if data.fromDate.year < currentYear ∧ data.details ≠ "monthly" then
    .reject "Details must be monthly when required year less then current year"
  else
    .fetchReport (reportPath data)

/-- A row of the measurement report, as rendered by the report table in
`Home.tsx`. -/
structure MeasurementRow where
  from_local_time : String
  to_local_time : String
  from_utc_time : String
  to_utc_time : String
  channel : JSValue
  measured_value : JSValue
  diff : JSValue
deriving DecidableEq, Repr

/-- The parsed JSON of a measurement-report response: either an array of
report rows or an object carrying an `err` field. -/
inductive ReportJson where
  | rows (rs : List MeasurementRow)
  | obj (err : JSValue)
deriving DecidableEq, Repr

/-- The `err` property access `values.err`: `undefined` on an array. -/
def errField : ReportJson → JSValue
  | .rows _ => .undefined
  | .obj e => e

/-- Model of the response handling in `updateTable` of `Home.tsx`: when
`values.err` is truthy the error is surfaced as a toast and the stored
row-set becomes the empty array, otherwise the parsed value is stored.
The result is the pair of the new `measurements` state and the optional
error toast detail. -/
def handleReportResponse (values : ReportJson) : ReportJson × Option JSValue :=
  if (errField values).truthy then (.rows [], some (errField values))
  else (values, none)

/-- Helper: `Nat.digitChar` of a digit below ten is a decimal digit
character. -/
lemma digitChar_isDigit (n : Nat) (h : n < 10) : (Nat.digitChar n).isDigit = true := by
  interval_cases n <;> decide

/-- Helper: the character list underlying the formatted date. -/
lemma formatYYYYMMDD_data (d : Date) :
    (formatYYYYMMDD d).data =
      [Nat.digitChar (d.year / 1000 % 10), Nat.digitChar (d.year / 100 % 10),
       Nat.digitChar (d.year / 10 % 10), Nat.digitChar (d.year % 10), '-',
       Nat.digitChar (d.month / 10 % 10), Nat.digitChar (d.month % 10), '-',
       Nat.digitChar (d.day / 10 % 10), Nat.digitChar (d.day % 10)] := by
  simp [formatYYYYMMDD, pad4, pad2, String.data_append]

/-- Helper: the formatted date always has the `YYYY-MM-DD` shape. -/
lemma formatYYYYMMDD_shape (d : Date) : isYYYYMMDD (formatYYYYMMDD d) = true := by
  rw [isYYYYMMDD, formatYYYYMMDD_data]
  simp [digitChar_isDigit _ (Nat.mod_lt _ (by norm_num))]

/-- C1: a report submission whose start year is strictly below the current
year with a non-monthly granularity is rejected with an error toast and no
fetch; every other submission fetches the report. -/
theorem report_submit_gate (currentYear : Nat) (d : FormValues) :
    (d.fromDate.year < currentYear ∧ d.details ≠ "monthly" →
      homeOnSubmit currentYear d =
        .reject "Details must be monthly when required year less then current year")
    ∧ (¬(d.fromDate.year < currentYear ∧ d.details ≠ "monthly") →
      homeOnSubmit currentYear d = .fetchReport (reportPath d)) := by
  constructor <;> intro h <;> simp [homeOnSubmit, h]

/-- Concrete instantiation of `report_submit_gate`: a 2020 start with daily
granularity is rejected in 2025, and a monthly one is fetched. -/
theorem report_submit_gate_witness :
    homeOnSubmit 2025
        { fromDate := ⟨2020, 5, 3⟩, toDate := ⟨2020, 6, 3⟩, ipAddress := "10.0.0.1",
          channel := -1, details := "daily" } =
      .reject "Details must be monthly when required year less then current year"
    ∧ homeOnSubmit 2025
        { fromDate := ⟨2020, 5, 3⟩, toDate := ⟨2020, 6, 3⟩, ipAddress := "10.0.0.1",
          channel := -1, details := "monthly" } =
      .fetchReport (reportPath
        { fromDate := ⟨2020, 5, 3⟩, toDate := ⟨2020, 6, 3⟩, ipAddress := "10.0.0.1",
          channel := -1, details := "monthly" }) :=
  ⟨(report_submit_gate 2025 _).1 (by constructor <;> decide),
   (report_submit_gate 2025 _).2 (by intro h; exact h.2 rfl)⟩

/-- C5: a report response with a truthy `err` field surfaces the error as a
toast and empties the displayed row-set; an array response replaces the
row-set with the response rows and shows no toast. -/
theorem report_error_handling (v : ReportJson) :
    ((errField v).truthy = true →
      handleReportResponse v = (.rows [], some (errField v)))
    ∧ (∀ rs, v = .rows rs → handleReportResponse v = (.rows rs, none)) := by
  constructor
  · intro h
    simp [handleReportResponse, h]
  · rintro rs rfl
    simp [handleReportResponse, errField, JSValue.truthy]

/-- Concrete instantiation of `report_error_handling`: an object response
with a nonempty error string clears the rows, an array response is kept. -/
theorem report_error_handling_witness :
    handleReportResponse (.obj (.str "no data")) = (.rows [], some (.str "no data"))
    ∧ handleReportResponse (.rows []) = (.rows [], none) :=
  ⟨(report_error_handling (.obj (.str "no data"))).1 (by decide),
   (report_error_handling (.rows [])).2 [] rfl⟩

/-- C6: every accepted report submission fetches
`/api/measurements/report` with `fromdate` and `todate` in `YYYY-MM-DD`
form, `ip` the selected device IP and `details` the granularity, with a
`channel` parameter appended exactly when the selected channel value is
strictly positive. -/
theorem report_url_spec (currentYear : Nat) (p : FormValues) (path : String)
    (h : homeOnSubmit currentYear p = .fetchReport path) :
    path = "/api/measurements/report?fromdate=" ++ formatYYYYMMDD p.fromDate
        ++ "&todate=" ++ formatYYYYMMDD p.toDate ++ "&ip=" ++ p.ipAddress
        ++ "&details=" ++ p.details
        ++ (if 0 < p.channel then "&channel=" ++ toString p.channel else "")
    ∧ isYYYYMMDD (formatYYYYMMDD p.fromDate) = true
    ∧ isYYYYMMDD (formatYYYYMMDD p.toDate) = true := by
  have hp : path = reportPath p := by
    by_cases hc : p.fromDate.year < currentYear ∧ p.details ≠ "monthly"
    · simp [homeOnSubmit, hc] at h
    · simpa [homeOnSubmit, hc] using h.symm
  subst hp
  refine ⟨?_, formatYYYYMMDD_shape _, formatYYYYMMDD_shape _⟩
  by_cases hc : 0 < p.channel <;>
    simp [reportPath, hc, String.append_assoc]

/-- Concrete instantiation of `report_url_spec`: a monthly 2024 request on
channel 3 yields the expected URL. -/
theorem report_url_spec_witness :
    "/api/measurements/report?fromdate=" ++ formatYYYYMMDD ⟨2024, 3, 7⟩
        ++ "&todate=" ++ formatYYYYMMDD ⟨2024, 4, 7⟩ ++ "&ip=" ++ "192.168.1.5"
        ++ "&details=" ++ "monthly"
        ++ (if 0 < (3 : Int) then "&channel=" ++ toString (3 : Int) else "")
      = "/api/measurements/report?fromdate=" ++ formatYYYYMMDD ⟨2024, 3, 7⟩
        ++ "&todate=" ++ formatYYYYMMDD ⟨2024, 4, 7⟩ ++ "&ip=" ++ "192.168.1.5"
        ++ "&details=" ++ "monthly"
        ++ (if 0 < (3 : Int) then "&channel=" ++ toString (3 : Int) else "")
    ∧ isYYYYMMDD (formatYYYYMMDD ⟨2024, 3, 7⟩) = true
    ∧ isYYYYMMDD (formatYYYYMMDD ⟨2024, 4, 7⟩) = true := by
  have h := report_url_spec 2025
    { fromDate := ⟨2024, 3, 7⟩, toDate := ⟨2024, 4, 7⟩, ipAddress := "192.168.1.5",
      channel := 3, details := "monthly" } _ rfl
  exact ⟨rfl, h.2.1, h.2.2⟩

/-- A raw energy-meter row as fetched from `/api/admin/crud/energy_meter`;
the `enabled` column arrives as an arbitrary JSON scalar. -/
structure RawEnergyMeterRow where
  id : Int
  asset_name : String
  ip_address : String
  port : Int
  time_zone : String
  enabled : JSValue
deriving DecidableEq, Repr

/-- An energy-meter row as handed to the DataTable by the EnergyMeter
query function: `enabled` has been normalised to a boolean. -/
structure EnergyMeterValues where
  id : Int
  asset_name : String
  ip_address : String
  port : Int
  time_zone : String
  enabled : Bool
deriving DecidableEq, Repr

/-- A raw channel row as fetched from `/api/admin/crud/channels`. -/
structure RawChannelRow where
  id : Int
  energy_meter_id : Int
  channel : Int
  channel_name : String
  enabled : JSValue
deriving DecidableEq, Repr

/-- A channel row as handed to the DataTable by the Channels query
function: `enabled` normalised to a boolean and, when a fetched energy
meter matches `energy_meter_id`, the display field `assset_name` (the
source's spelling) set to that meter's `asset_name`. -/
structure ChannelValues where
  id : Int
  energy_meter_id : Int
  channel : Int
  channel_name : String
  enabled : Bool
  assset_name : Option String
deriving DecidableEq, Repr

/-- Model of the per-row processing in the Channels `queryFn`
(`channels.tsx`): filter the fetched energy meters for the row's
`energy_meter_id`, copy `result[0].asset_name` into `assset_name` when the
filter result is nonempty, and normalise `enabled` with the ternary
`values[idx].enabled ? true : false`. -/
def processChannelRow (energyMetersValues : List RawEnergyMeterRow)
    (element : RawChannelRow) : ChannelValues :=
  let result := energyMetersValues.filter fun energyMeter =>
    energyMeter.id == element.energy_meter_id
  { id := element.id
    energy_meter_id := element.energy_meter_id
    channel := element.channel
    channel_name := element.channel_name
    enabled := if element.enabled.truthy then true else false
    assset_name :=
      match result with
      | [] => none
      | m :: _ => some m.asset_name }

/-- Model of the Channels `queryFn`: fetch the channel page and the full
energy-meter collection, then process every row. -/
def channelsQueryFn (values : List RawChannelRow)
    (energyMetersValues : List RawEnergyMeterRow) : List ChannelValues :=
  values.map (processChannelRow energyMetersValues)

/-- Model of the per-row processing in the EnergyMeter `queryFn`:
`values[idx].enabled = values[idx].enabled ? true : false`. -/
def processEnergyMeterRow (element : RawEnergyMeterRow) : EnergyMeterValues :=
  { id := element.id
    asset_name := element.asset_name
    ip_address := element.ip_address
    port := element.port
    time_zone := element.time_zone
    enabled := if element.enabled.truthy then true else false }

/-- Model of the EnergyMeter `queryFn`: fetch the page and normalise every
row's `enabled` flag. -/
def energyMeterQueryFn (values : List RawEnergyMeterRow) : List EnergyMeterValues :=
  values.map processEnergyMeterRow

/-- The lazy DataTable state event shared by both CRUD pages: pagination
offset, page size, page number and the filter map (modelled as an
association list of column filters). -/
structure TableStateEvent where
  first : Nat
  rows : Nat
  page : Nat
  pageCount : Nat
  sortField : String
  sortOrder : Int
  filters : List (String × String)
deriving DecidableEq, Repr

/-- Model of the `onPage` callback of both CRUD pages: the event is stored
as the new lazy state unmodified. -/
def onPage (event : TableStateEvent) : TableStateEvent :=
  event

/-- Model of the `onFilter` callback of both CRUD pages: `event.first` is
set to `0` before the event is stored as the new lazy state. -/
def onFilter (event : TableStateEvent) : TableStateEvent :=
  { event with first := 0 }

/-- HTTP method of a request issued by the pages. -/
inductive Method where
  | GET
  | POST
  | PUT
  | DELETE
deriving DecidableEq, Repr

/-- The JSON body sent with a mutation: the energy-meter params object,
the channel params object, or the constant delete action object. -/
inductive ReqBody where
  | em (asset_name : String) (ip_address : String) (port : Int) (time_zone : String)
      (enabled : Bool)
  | channel (energy_meter_id : Int) (channel : Int) (channel_name : String)
      (enabled : Bool)
  | deleteAction
deriving DecidableEq, Repr

/-- A fetch request as issued by the pages. -/
structure Request where
  method : Method
  url : String
  body : ReqBody
deriving DecidableEq, Repr

/-- A client-side state update or toast performed by a success handler. -/
inductive UIAction where
  | invalidate (queryKey : String)
  | clearSelection
  | hideDialog
  | showToast (severity : String)
deriving DecidableEq, Repr

/-- Model of `updatePage` on the Channels page: invalidate the list and
count queries and clear the row selection. -/
def channelsUpdatePage : List UIAction :=
  [.invalidate "channels", .invalidate "channelscount", .clearSelection]

/-- Model of `updatePage` on the EnergyMeter page: invalidate the list and
count queries and clear the row selection. -/
def energyMeterUpdatePage : List UIAction :=
  [.invalidate "energy_meter", .invalidate "energy_metercount", .clearSelection]

/-- The outcome of a form submission: the requests issued (the code issues
exactly one fetch) and the actions run by its success handler. -/
structure SubmitOutcome where
  requests : List Request
  onSuccess : List UIAction
deriving DecidableEq, Repr

/-- Truthiness of `editedRow && editedRow.id` for a nullable channel row:
the row object must be present and its numeric `id` nonzero. -/
def channelRowIdTruthy : Option ChannelValues → Bool
  | none => false
  | some row => row.id != 0

/-- Truthiness of `editedRow && editedRow.id` for a nullable energy-meter
row. -/
def energyMeterRowIdTruthy : Option EnergyMeterValues → Bool
  | none => false
  | some row => row.id != 0

/-- The channel form values of `channels.tsx` (interface `FormValues`). -/
structure ChannelForm where
  energy_meter_id : Int
  channel : Int
  channel_name : String
  enabled : Bool
deriving DecidableEq, Repr

/-- The energy-meter form values of the EnergyMeter page (interface
`FormValues`, without the unused `id`). -/
structure EMForm where
  asset_name : String
  ip_address : String
  port : Int
  time_zone : String
  enabled : Bool
deriving DecidableEq, Repr

/-- Model of `onSubmit` on the Channels page: build the params object from
the form data, then issue a single PUT to the row's resource when
`editedRow && editedRow.id`, otherwise a single POST to the collection; on
success run `updatePage` (invalidate list and count, clear selection),
hide the dialog and show a success toast. -/
def channelsOnSubmit (editedRow : Option ChannelValues) (data : ChannelForm) :
    SubmitOutcome :=
  let params : ReqBody :=
    .channel data.energy_meter_id data.channel data.channel_name data.enabled
  let onOk : List UIAction := channelsUpdatePage ++ [.hideDialog, .showToast "success"]
  match editedRow with
  | some row =>
      if row.id != 0 then
        { requests := [⟨.PUT, "/api/admin/crud/channels/" ++ toString row.id, params⟩]
          onSuccess := onOk }
      else
        { requests := [⟨.POST, "/api/admin/crud/channels", params⟩], onSuccess := onOk }
  | none =>
      { requests := [⟨.POST, "/api/admin/crud/channels", params⟩], onSuccess := onOk }

/-- Model of `onSubmit` on the EnergyMeter page: build the params object
(with `enabled: data.enabled ? true : false`), then issue a single PUT to
the row's resource when `editedRow && editedRow.id`, otherwise a single
POST to the collection; on success run `updatePage`, hide the dialog and
show a success toast. -/
def energyMeterOnSubmit (editedRow : Option EnergyMeterValues) (data : EMForm) :
    SubmitOutcome :=
  let params : ReqBody :=
    .em data.asset_name data.ip_address data.port data.time_zone
      (if data.enabled then true else false)
  let onOk : List UIAction :=
    energyMeterUpdatePage ++ [.hideDialog, .showToast "success"]
  match editedRow with
  | some row =>
      if row.id != 0 then
        { requests := [⟨.PUT, "/api/admin/crud/energy_meter/" ++ toString row.id, params⟩]
          onSuccess := onOk }
      else
        { requests := [⟨.POST, "/api/admin/crud/energy_meter", params⟩], onSuccess := onOk }
  | none =>
      { requests := [⟨.POST, "/api/admin/crud/energy_meter", params⟩], onSuccess := onOk }

/-- Model of `deleteSelectedRow` on the Channels page: when a row is
selected, issue one DELETE to its resource and on success show a toast and
run `updatePage`; without a selection nothing at all happens. -/
def channelsDeleteSelectedRow (selectedRow : Option ChannelValues) :
    List Request × List UIAction :=
  match selectedRow with
  | some row =>
      ([⟨.DELETE, "/api/admin/crud/channels/" ++ toString row.id, .deleteAction⟩],
       .showToast "success" :: channelsUpdatePage)
  | none => ([], [])

/-- Model of `deleteSelectedRow` on the EnergyMeter page: when a row is
selected, issue one DELETE to its resource and on success show a toast and
run `updatePage`; without a selection nothing at all happens. -/
def energyMeterDeleteSelectedRow (selectedRow : Option EnergyMeterValues) :
    List Request × List UIAction :=
  match selectedRow with
  | some row =>
      ([⟨.DELETE, "/api/admin/crud/energy_meter/" ++ toString row.id, .deleteAction⟩],
       .showToast "success" :: energyMeterUpdatePage)
  | none => ([], [])

/-- The default energy-meter form values installed by the `useEffect` when
no row is being edited: empty names, port 50003 and the guessed default
time zone. -/
def emDefaultForm (defaultTimeZone : String) : EMForm :=
  { asset_name := "", ip_address := "", port := 50003,
    time_zone := defaultTimeZone, enabled := false }

/-- Model of the EnergyMeter `useEffect` on `editedRow`: when
`editedRow && editedRow.id`, every form field is set from the edited row,
otherwise the defaults are installed. -/
def emLoadForm (defaultTimeZone : String) (editedRow : Option EnergyMeterValues) :
    EMForm :=
  match editedRow with
  | some row =>
      if row.id != 0 then
        { asset_name := row.asset_name, ip_address := row.ip_address,
          port := row.port, time_zone := row.time_zone,
          enabled := if row.enabled then true else false }
      else emDefaultForm defaultTimeZone
  | none => emDefaultForm defaultTimeZone

/-- Disabled state of the `ip_address` and `port` inputs of the
EnergyMeter dialog: `(editedRow !== undefined && editedRow !== null) &&
editedRow.id > -1`. -/
def ipPortDisabled (editedRow : Option EnergyMeterValues) : Bool :=
  match editedRow with
  | some row => row.id > -1
  | none => false

/-- One user interaction with an input of the EnergyMeter dialog. -/
inductive EMFieldEdit where
  | setAssetName (s : String)
  | setIpAddress (s : String)
  | setPort (n : Int)
  | setTimeZone (s : String)
  | setEnabled (b : Bool)
deriving DecidableEq, Repr

/-- Apply one user interaction to the form state: a disabled input ignores
interaction, so when `ip_address` and `port` are locked their edits are
dropped; every other field is updated. -/
def emApplyEdit (ipPortLocked : Bool) (f : EMForm) : EMFieldEdit → EMForm
  | .setAssetName s => { f with asset_name := s }
  | .setIpAddress s => if ipPortLocked then f else { f with ip_address := s }
  | .setPort n => if ipPortLocked then f else { f with port := n }
  | .setTimeZone s => { f with time_zone := s }
  | .setEnabled b => { f with enabled := b }

/-- The form state reached in the EnergyMeter dialog after the
`useEffect` populated the fields from `editedRow` and the user performed a
sequence of input interactions. -/
def emFormAfterEdits (defaultTimeZone : String) (editedRow : Option EnergyMeterValues)
    (edits : List EMFieldEdit) : EMForm :=
  edits.foldl (emApplyEdit (ipPortDisabled editedRow)) (emLoadForm defaultTimeZone editedRow)

/-- The component-local state of a CRUD page that the delete flow touches:
the selected row, the edited row, the edit-dialog visibility and the
confirm-dialog visibility. -/
structure CrudPageState (Row : Type) where
  selectedRow : Option Row
  editedRow : Option Row
  visible : Bool
  confirmDialogVisible : Bool

/-- A user-interface event on a CRUD page. -/
inductive CrudEvent (Row Form : Type) where
  | selectRow (r : Option Row)
  | clickNew
  | clickModify
  | clickDelete
  | confirmAccept
  | confirmHide
  | submitForm (d : Form)
  | dialogHide
deriving DecidableEq, Repr

/-- Truthiness of `selectedRow && selectedRow.id`, guarding the Modify and
Delete buttons. -/
def channelSelectionEnabled (s : CrudPageState ChannelValues) : Bool :=
  channelRowIdTruthy s.selectedRow

/-- Truthiness of `selectedRow && selectedRow.id` on the EnergyMeter page. -/
def energyMeterSelectionEnabled (s : CrudPageState EnergyMeterValues) : Bool :=
  energyMeterRowIdTruthy s.selectedRow

/-- One step of the Channels page user interface: each event maps to the
state transition and fetch requests its handler performs.  The Modify and
Delete buttons are disabled unless `selectedRow && selectedRow.id`, the
confirm dialog can only be accepted while it is visible, and the form can
only be submitted while the edit dialog is visible.  DELETE requests arise
solely from `deleteSelectedRow`, installed as the `accept` callback of the
`ConfirmDialog`. -/
def channelsStep (s : CrudPageState ChannelValues)
    (e : CrudEvent ChannelValues ChannelForm) :
    CrudPageState ChannelValues × List Request :=
  match e with
  | .selectRow r => ({ s with selectedRow := r }, [])
  | .clickNew => ({ s with selectedRow := none, editedRow := none, visible := true }, [])
  | .clickModify =>
      if channelSelectionEnabled s then
        ({ s with editedRow := s.selectedRow, visible := true }, [])
      else (s, [])
  | .clickDelete =>
      if channelSelectionEnabled s then
        ({ s with confirmDialogVisible := true }, [])
      else (s, [])
  | .confirmAccept =>
      if s.confirmDialogVisible then
        ({ s with confirmDialogVisible := false },
         (channelsDeleteSelectedRow s.selectedRow).1)
      else (s, [])
  | .confirmHide => ({ s with confirmDialogVisible := false }, [])
  | .submitForm d =>
      if s.visible then (s, (channelsOnSubmit s.editedRow d).requests)
      else (s, [])
  | .dialogHide => ({ s with visible := false }, [])

/-- One step of the EnergyMeter page user interface, mirroring
`channelsStep`. -/
def energyMeterStep (s : CrudPageState EnergyMeterValues)
    (e : CrudEvent EnergyMeterValues EMForm) :
    CrudPageState EnergyMeterValues × List Request :=
  match e with
  | .selectRow r => ({ s with selectedRow := r }, [])
  | .clickNew => ({ s with selectedRow := none, editedRow := none, visible := true }, [])
  | .clickModify =>
      if energyMeterSelectionEnabled s then
        ({ s with editedRow := s.selectedRow, visible := true }, [])
      else (s, [])
  | .clickDelete =>
      if energyMeterSelectionEnabled s then
        ({ s with confirmDialogVisible := true }, [])
      else (s, [])
  | .confirmAccept =>
      if s.confirmDialogVisible then
        ({ s with confirmDialogVisible := false },
         (energyMeterDeleteSelectedRow s.selectedRow).1)
      else (s, [])
  | .confirmHide => ({ s with confirmDialogVisible := false }, [])
  | .submitForm d =>
      if s.visible then (s, (energyMeterOnSubmit s.editedRow d).requests)
      else (s, [])
  | .dialogHide => ({ s with visible := false }, [])

/-- Helper: with the ip/port inputs locked, one interaction leaves
`ip_address` unchanged. -/
lemma emApplyEdit_locked_ip (f : EMForm) (e : EMFieldEdit) :
    (emApplyEdit true f e).ip_address = f.ip_address := by
  cases e <;> simp [emApplyEdit]

/-- Helper: with the ip/port inputs locked, one interaction leaves `port`
unchanged. -/
lemma emApplyEdit_locked_port (f : EMForm) (e : EMFieldEdit) :
    (emApplyEdit true f e).port = f.port := by
  cases e <;> simp [emApplyEdit]

/-- Helper: with the ip/port inputs locked, any interaction sequence leaves
`ip_address` and `port` unchanged. -/
lemma emApplyEdits_locked (edits : List EMFieldEdit) (f : EMForm) :
    (edits.foldl (emApplyEdit true) f).ip_address = f.ip_address
    ∧ (edits.foldl (emApplyEdit true) f).port = f.port := by
  induction edits generalizing f with
  | nil => exact ⟨rfl, rfl⟩
  | cons e es ih =>
      rw [List.foldl_cons]
      exact ⟨(ih _).1.trans (emApplyEdit_locked_ip f e),
        (ih _).2.trans (emApplyEdit_locked_port f e)⟩

/-- C2: when an existing energy-meter row (positive id) is modified, the
`ip_address` and `port` inputs are disabled, so whatever interactions the
user performs, the submitted form still carries the row's original
`ip_address` and `port`, and the single PUT issued to the row's resource
carries exactly those original values. -/
theorem em_update_preserves_ip_port (tz : String) (row : EnergyMeterValues)
    (edits : List EMFieldEdit) (hid : 0 < row.id) :
    ipPortDisabled (some row) = true
    ∧ (emFormAfterEdits tz (some row) edits).ip_address = row.ip_address
    ∧ (emFormAfterEdits tz (some row) edits).port = row.port
    ∧ (energyMeterOnSubmit (some row) (emFormAfterEdits tz (some row) edits)).requests
      = [⟨.PUT, "/api/admin/crud/energy_meter/" ++ toString row.id,
          .em (emFormAfterEdits tz (some row) edits).asset_name
            row.ip_address row.port
            (emFormAfterEdits tz (some row) edits).time_zone
            (if (emFormAfterEdits tz (some row) edits).enabled then true else false)⟩] := by
  have hdis : ipPortDisabled (some row) = true := by
    simp only [ipPortDisabled, decide_eq_true_eq]
    omega
  have hne : (row.id != 0) = true := by
    simp only [bne_iff_ne, ne_eq]
    omega
  have hload : emLoadForm tz (some row) =
      { asset_name := row.asset_name, ip_address := row.ip_address, port := row.port,
        time_zone := row.time_zone,
        enabled := if row.enabled then true else false } := by
    simp [emLoadForm, hne]
  have hframe : (emFormAfterEdits tz (some row) edits).ip_address = row.ip_address
      ∧ (emFormAfterEdits tz (some row) edits).port = row.port := by
    rw [emFormAfterEdits, hdis, hload]
    exact ⟨(emApplyEdits_locked edits _).1, (emApplyEdits_locked edits _).2⟩
  refine ⟨hdis, hframe.1, hframe.2, ?_⟩
  simp [energyMeterOnSubmit, hne, hframe.1, hframe.2]

/-- Concrete instantiation of `em_update_preserves_ip_port`: editing row 3
and trying to type a new IP and port still submits the original values. -/
theorem em_update_preserves_ip_port_witness :
    ipPortDisabled (some ⟨3, "m1", "10.0.0.9", 50003, "UTC", true⟩) = true
    ∧ (emFormAfterEdits "UTC" (some ⟨3, "m1", "10.0.0.9", 50003, "UTC", true⟩)
        [.setIpAddress "1.2.3.4", .setPort 99]).ip_address = "10.0.0.9"
    ∧ (emFormAfterEdits "UTC" (some ⟨3, "m1", "10.0.0.9", 50003, "UTC", true⟩)
        [.setIpAddress "1.2.3.4", .setPort 99]).port = 50003
    ∧ (energyMeterOnSubmit (some ⟨3, "m1", "10.0.0.9", 50003, "UTC", true⟩)
        (emFormAfterEdits "UTC" (some ⟨3, "m1", "10.0.0.9", 50003, "UTC", true⟩)
          [.setIpAddress "1.2.3.4", .setPort 99])).requests
      = [⟨.PUT, "/api/admin/crud/energy_meter/" ++ toString (3 : Int),
          .em (emFormAfterEdits "UTC" (some ⟨3, "m1", "10.0.0.9", 50003, "UTC", true⟩)
              [.setIpAddress "1.2.3.4", .setPort 99]).asset_name
            "10.0.0.9" 50003
            (emFormAfterEdits "UTC" (some ⟨3, "m1", "10.0.0.9", 50003, "UTC", true⟩)
              [.setIpAddress "1.2.3.4", .setPort 99]).time_zone
            (if (emFormAfterEdits "UTC" (some ⟨3, "m1", "10.0.0.9", 50003, "UTC", true⟩)
                [.setIpAddress "1.2.3.4", .setPort 99]).enabled then true else false)⟩] :=
  em_update_preserves_ip_port "UTC" ⟨3, "m1", "10.0.0.9", 50003, "UTC", true⟩
    [.setIpAddress "1.2.3.4", .setPort 99] (by decide)

/-- C3: every valid Channels or EnergyMeter form submission issues exactly
one mutation: a PUT to the row's resource id when `editedRow` is present
with an id, otherwise a POST to the collection; and its success handler
invalidates the list and count queries and clears the row selection. -/
theorem crud_submit_single_mutation
    (erC : Option ChannelValues) (dC : ChannelForm)
    (erE : Option EnergyMeterValues) (dE : EMForm) :
    ((channelsOnSubmit erC dC).requests.length = 1
      ∧ (∀ row, erC = some row → row.id ≠ 0 →
          (channelsOnSubmit erC dC).requests =
            [⟨.PUT, "/api/admin/crud/channels/" ++ toString row.id,
              .channel dC.energy_meter_id dC.channel dC.channel_name dC.enabled⟩])
      ∧ (channelRowIdTruthy erC = false →
          (channelsOnSubmit erC dC).requests =
            [⟨.POST, "/api/admin/crud/channels",
              .channel dC.energy_meter_id dC.channel dC.channel_name dC.enabled⟩])
      ∧ (channelsOnSubmit erC dC).onSuccess =
          [.invalidate "channels", .invalidate "channelscount", .clearSelection,
            .hideDialog, .showToast "success"])
    ∧ ((energyMeterOnSubmit erE dE).requests.length = 1
      ∧ (∀ row, erE = some row → row.id ≠ 0 →
          (energyMeterOnSubmit erE dE).requests =
            [⟨.PUT, "/api/admin/crud/energy_meter/" ++ toString row.id,
              .em dE.asset_name dE.ip_address dE.port dE.time_zone
                (if dE.enabled then true else false)⟩])
      ∧ (energyMeterRowIdTruthy erE = false →
          (energyMeterOnSubmit erE dE).requests =
            [⟨.POST, "/api/admin/crud/energy_meter",
              .em dE.asset_name dE.ip_address dE.port dE.time_zone
                (if dE.enabled then true else false)⟩])
      ∧ (energyMeterOnSubmit erE dE).onSuccess =
          [.invalidate "energy_meter", .invalidate "energy_metercount", .clearSelection,
            .hideDialog, .showToast "success"]) := by
  refine ⟨⟨?_, ?_, ?_, ?_⟩, ⟨?_, ?_, ?_, ?_⟩⟩
  · rcases erC with _ | row
    · simp [channelsOnSubmit]
    · rcases eq_or_ne row.id 0 with h | h <;> simp [channelsOnSubmit, h]
  · rintro row rfl h
    simp [channelsOnSubmit, h]
  · intro h
    rcases erC with _ | row
    · simp [channelsOnSubmit]
    · simp only [channelRowIdTruthy, bne_iff_ne, ne_eq, decide_eq_false_iff_not,
        not_not] at h
      simp [channelsOnSubmit, h]
  · rcases erC with _ | row
    · simp [channelsOnSubmit, channelsUpdatePage]
    · rcases eq_or_ne row.id 0 with h | h <;>
        simp [channelsOnSubmit, channelsUpdatePage, h]
  · rcases erE with _ | row
    · simp [energyMeterOnSubmit]
    · rcases eq_or_ne row.id 0 with h | h <;> simp [energyMeterOnSubmit, h]
  · rintro row rfl h
    simp [energyMeterOnSubmit, h]
  · intro h
    rcases erE with _ | row
    · simp [energyMeterOnSubmit]
    · simp only [energyMeterRowIdTruthy, bne_iff_ne, ne_eq, decide_eq_false_iff_not,
        not_not] at h
      simp [energyMeterOnSubmit, h]
  · rcases erE with _ | row
    · simp [energyMeterOnSubmit, energyMeterUpdatePage]
    · rcases eq_or_ne row.id 0 with h | h <;>
        simp [energyMeterOnSubmit, energyMeterUpdatePage, h]

/-- Concrete instantiation of `crud_submit_single_mutation`: modifying
channel row 5 issues the PUT to its resource, creating an energy meter
issues the POST to the collection. -/
theorem crud_submit_single_mutation_witness :
    (channelsOnSubmit (some ⟨5, 2, 1, "c1", true, none⟩) ⟨2, 1, "c1", true⟩).requests =
      [⟨.PUT, "/api/admin/crud/channels/" ++ toString (5 : Int),
        .channel 2 1 "c1" true⟩]
    ∧ (energyMeterOnSubmit none ⟨"m1", "10.0.0.1", 50003, "UTC", false⟩).requests =
      [⟨.POST, "/api/admin/crud/energy_meter",
        .em "m1" "10.0.0.1" 50003 "UTC" (if false then true else false)⟩] :=
  ⟨(crud_submit_single_mutation (some ⟨5, 2, 1, "c1", true, none⟩) ⟨2, 1, "c1", true⟩
      none ⟨"m1", "10.0.0.1", 50003, "UTC", false⟩).1.2.1 _ rfl (by decide),
   (crud_submit_single_mutation (some ⟨5, 2, 1, "c1", true, none⟩) ⟨2, 1, "c1", true⟩
      none ⟨"m1", "10.0.0.1", 50003, "UTC", false⟩).2.2.2.1 rfl⟩

/-- C7: on both CRUD pages a page-navigation event is stored as the new
lazy table state unmodified, while a filter event is stored with `first`
reset to `0` and every other component kept. -/
theorem lazy_table_state_spec (event : TableStateEvent) :
    onPage event = event
    ∧ (onFilter event).first = 0
    ∧ (onFilter event).rows = event.rows
    ∧ (onFilter event).page = event.page
    ∧ (onFilter event).pageCount = event.pageCount
    ∧ (onFilter event).sortField = event.sortField
    ∧ (onFilter event).sortOrder = event.sortOrder
    ∧ (onFilter event).filters = event.filters :=
  ⟨rfl, rfl, rfl, rfl, rfl, rfl, rfl, rfl⟩

/-- C9: both query functions hand the table rows whose `enabled` field is
the boolean truthiness of the fetched value: `true` exactly when the
fetched scalar is truthy, `false` otherwise, never any other value. -/
theorem enabled_normalized_to_bool (ms : List RawEnergyMeterRow)
    (rc : RawChannelRow) (re : RawEnergyMeterRow) :
    (processChannelRow ms rc).enabled = rc.enabled.truthy
    ∧ (processEnergyMeterRow re).enabled = re.enabled.truthy
    ∧ ((processChannelRow ms rc).enabled = true
        ∨ (processChannelRow ms rc).enabled = false)
    ∧ ((processEnergyMeterRow re).enabled = true
        ∨ (processEnergyMeterRow re).enabled = false) := by
  refine ⟨?_, ?_, ?_, ?_⟩
  · simp [processChannelRow]
  · simp [processEnergyMeterRow]
  · rcases Bool.eq_false_or_eq_true (processChannelRow ms rc).enabled with h | h
    · exact Or.inl h
    · exact Or.inr h
  · rcases Bool.eq_false_or_eq_true (processEnergyMeterRow re).enabled with h | h
    · exact Or.inl h
    · exact Or.inr h

/-- C10: without a selected row, `deleteSelectedRow` on either page issues
no request and performs no state update or toast. -/
theorem delete_noop_without_selection :
    channelsDeleteSelectedRow none = ([], [])
    ∧ energyMeterDeleteSelectedRow none = ([], []) :=
  ⟨rfl, rfl⟩

/-- Helper: every request issued by the Channels submit handler is a PUT
or a POST. -/
lemma channelsOnSubmit_method (er : Option ChannelValues) (d : ChannelForm)
    (r : Request) (h : r ∈ (channelsOnSubmit er d).requests) :
    r.method = .PUT ∨ r.method = .POST := by
  rcases er with _ | row
  · simp [channelsOnSubmit] at h
    simp [h]
  · rcases eq_or_ne row.id 0 with h0 | h0 <;>
      simp [channelsOnSubmit, h0] at h <;> simp [h]

/-- Helper: every request issued by the EnergyMeter submit handler is a
PUT or a POST. -/
lemma energyMeterOnSubmit_method (er : Option EnergyMeterValues) (d : EMForm)
    (r : Request) (h : r ∈ (energyMeterOnSubmit er d).requests) :
    r.method = .PUT ∨ r.method = .POST := by
  rcases er with _ | row
  · simp [energyMeterOnSubmit] at h
    simp [h]
  · rcases eq_or_ne row.id 0 with h0 | h0 <;>
      simp [energyMeterOnSubmit, h0] at h <;> simp [h]

/-- C4: on either CRUD page, a step that issues a DELETE request can only
be the accept callback of the confirmation dialog, fired while that dialog
is visible; no other event ever issues a DELETE. -/
theorem crud_delete_requires_confirmation
    (sC : CrudPageState ChannelValues) (eC : CrudEvent ChannelValues ChannelForm)
    (sE : CrudPageState EnergyMeterValues) (eE : CrudEvent EnergyMeterValues EMForm) :
    (∀ r ∈ (channelsStep sC eC).2, r.method = .DELETE →
      eC = .confirmAccept ∧ sC.confirmDialogVisible = true)
    ∧ (∀ r ∈ (energyMeterStep sE eE).2, r.method = .DELETE →
      eE = .confirmAccept ∧ sE.confirmDialogVisible = true) := by
  constructor
  · intro r hr hm
    cases eC with
    | selectRow r2 => simp [channelsStep] at hr
    | clickNew => simp [channelsStep] at hr
    | clickModify =>
        cases hsel : channelSelectionEnabled sC <;> simp [channelsStep, hsel] at hr
    | clickDelete =>
        cases hsel : channelSelectionEnabled sC <;> simp [channelsStep, hsel] at hr
    | confirmAccept =>
        cases hv : sC.confirmDialogVisible
        · simp [channelsStep, hv] at hr
        · exact ⟨rfl, rfl⟩
    | confirmHide => simp [channelsStep] at hr
    | submitForm d =>
        cases hv : sC.visible
        · simp [channelsStep, hv] at hr
        · simp only [channelsStep, hv, if_true] at hr
          rcases channelsOnSubmit_method sC.editedRow d r hr with h | h <;>
            rw [hm] at h <;> cases h
    | dialogHide => simp [channelsStep] at hr
  · intro r hr hm
    cases eE with
    | selectRow r2 => simp [energyMeterStep] at hr
    | clickNew => simp [energyMeterStep] at hr
    | clickModify =>
        cases hsel : energyMeterSelectionEnabled sE <;>
          simp [energyMeterStep, hsel] at hr
    | clickDelete =>
        cases hsel : energyMeterSelectionEnabled sE <;>
          simp [energyMeterStep, hsel] at hr
    | confirmAccept =>
        cases hv : sE.confirmDialogVisible
        · simp [energyMeterStep, hv] at hr
        · exact ⟨rfl, rfl⟩
    | confirmHide => simp [energyMeterStep] at hr
    | submitForm d =>
        cases hv : sE.visible
        · simp [energyMeterStep, hv] at hr
        · simp only [energyMeterStep, hv, if_true] at hr
          rcases energyMeterOnSubmit_method sE.editedRow d r hr with h | h <;>
            rw [hm] at h <;> cases h
    | dialogHide => simp [energyMeterStep] at hr

/-- Concrete instantiation of `crud_delete_requires_confirmation`: the
DELETE issued for selected channel row 7 happens at a confirm-accept step
with the dialog visible. -/
theorem crud_delete_requires_confirmation_witness :
    (CrudEvent.confirmAccept : CrudEvent ChannelValues ChannelForm) =
        CrudEvent.confirmAccept
    ∧ (CrudPageState.mk (some ⟨7, 2, 1, "c7", true, none⟩) none false true
        : CrudPageState ChannelValues).confirmDialogVisible = true :=
  (crud_delete_requires_confirmation
      ⟨some ⟨7, 2, 1, "c7", true, none⟩, none, false, true⟩ CrudEvent.confirmAccept
      ⟨none, none, false, false⟩ CrudEvent.confirmHide).1
    ⟨.DELETE, "/api/admin/crud/channels/" ++ toString (7 : Int), .deleteAction⟩
    (by simp [channelsStep, channelsDeleteSelectedRow]) rfl

/-- C8: for every channel row, the Channels query function augments the
row with the `asset_name` of the first fetched energy meter whose id
equals the row's `energy_meter_id`, and leaves the display name absent
when no fetched meter matches. -/
theorem channels_join_spec (ms : List RawEnergyMeterRow) (r : RawChannelRow) :
    ((∃ m ∈ ms, m.id = r.energy_meter_id) →
      ∃ m ∈ ms, m.id = r.energy_meter_id
        ∧ (processChannelRow ms r).assset_name = some m.asset_name)
    ∧ ((∀ m ∈ ms, m.id ≠ r.energy_meter_id) →
      (processChannelRow ms r).assset_name = none) := by
  constructor
  · intro hex
    rcases hfil : ms.filter (fun m => m.id == r.energy_meter_id) with _ | ⟨m, t⟩
    · exfalso
      rcases hex with ⟨m, hm, hid⟩
      have hnone := List.filter_eq_nil_iff.mp hfil m hm
      simp [hid] at hnone
    · have hmem : m ∈ ms.filter (fun m => m.id == r.energy_meter_id) := by
        rw [hfil]
        exact List.mem_cons_self _ _
      have h2 := List.mem_filter.mp hmem
      refine ⟨m, h2.1, by simpa using h2.2, ?_⟩
      simp [processChannelRow, hfil]
  · intro hall
    have hfil : ms.filter (fun m => m.id == r.energy_meter_id) = [] := by
      refine List.filter_eq_nil_iff.mpr ?_
      intro m hm
      simpa using hall m hm
    simp [processChannelRow, hfil]

/-- Concrete instantiation of `channels_join_spec`: a channel row whose
`energy_meter_id` is 2 picks up the asset name of the fetched meter with
id 2. -/
theorem channels_join_spec_witness :
    ∃ m ∈ [(⟨2, "Main meter", "10.0.0.2", 50003, "UTC", .num 1⟩ : RawEnergyMeterRow)],
      m.id = (⟨4, 2, 1, "c4", .num 1⟩ : RawChannelRow).energy_meter_id
        ∧ (processChannelRow [⟨2, "Main meter", "10.0.0.2", 50003, "UTC", .num 1⟩]
            ⟨4, 2, 1, "c4", .num 1⟩).assset_name = some m.asset_name :=
  (channels_join_spec [⟨2, "Main meter", "10.0.0.2", 50003, "UTC", .num 1⟩]
      ⟨4, 2, 1, "c4", .num 1⟩).1
    ⟨⟨2, "Main meter", "10.0.0.2", 50003, "UTC", .num 1⟩, by simp, rfl⟩
